import Mathlib

/-!
Verification of the resourceManager repository's server/resource-manager
subsystem against its natural-language specification.

The frontend TypeScript (pod dialogs, app shell, mode configuration) is
embedded from the source files under `src/frontend` and `src/unnamed`.
The Flask backend (resource ledger, server manager, health monitor,
consistency checker) is not part of the source snapshot — only its
documentation and start scripts are — so those components are modelled
from the specification, as marked on each definition.
-/

namespace ResourceManager

/-! ## Resource data model
Mirrors `ResourceType` in `src/frontend/src/app/constants/app.constants.ts`
and the `PodResources` interface in the shared `pod-dialog.base`
(`src/frontend/src/app/edit-pod-dialog/edit-pod-dialog.ts`, third segment). -/

inductive ResourceField where
  | gpus
  | ram_gb
  | storage_gb
deriving DecidableEq, Repr, Fintype

/-- The display/key name of a resource field, as used in error messages. -/
def ResourceField.name : ResourceField → String
  | .gpus => "gpus"
  | .ram_gb => "ram_gb"
  | .storage_gb => "storage_gb"

/-- The iteration order of `resourceFields` in `PodDialogBase`
(`protected resourceFields = ['gpus', 'ram_gb', 'storage_gb']`). -/
def resourceFields : List ResourceField := [.gpus, .ram_gb, .storage_gb]

/-- Structure `PodResources` — one figure per resource type. JavaScript numbers are
embedded as integers; every claim settled here depends only on ordering
and exact addition/subtraction of the figures. -/
structure PodResources where
  gpus : Int
  ram_gb : Int
  storage_gb : Int
deriving DecidableEq, Repr

def PodResources.get (p : PodResources) : ResourceField → Int
  | .gpus => p.gpus
  | .ram_gb => p.ram_gb
  | .storage_gb => p.storage_gb

def PodResources.add (p q : PodResources) : PodResources :=
  ⟨p.gpus + q.gpus, p.ram_gb + q.ram_gb, p.storage_gb + q.storage_gb⟩

def PodResources.sub (p q : PodResources) : PodResources :=
  ⟨p.gpus - q.gpus, p.ram_gb - q.ram_gb, p.storage_gb - q.storage_gb⟩

theorem PodResources.get_add (p q : PodResources) (r : ResourceField) :
    (p.add q).get r = p.get r + q.get r := by
  cases r <;> rfl

theorem PodResources.get_sub (p q : PodResources) (r : ResourceField) :
    (p.sub q).get r = p.get r - q.get r := by
  cases r <;> rfl

theorem forall_resourceFields {p : ResourceField → Prop} :
    (∀ r ∈ resourceFields, p r) ↔ ∀ r, p r := by
  constructor
  · intro h r
    cases r <;> exact h _ (by simp [resourceFields])
  · intro h r _
    exact h r

/-! ## PodDialogBase
Embedded from the shared dialog base class
(`src/frontend/src/app/edit-pod-dialog/edit-pod-dialog.ts`, third segment,
lines 339-403): `getMaxAvailable`, `validateResources`,
`validateAllResources`, `validatePodName`, `hasResourceErrors`,
`hasErrors`. -/

namespace PodDialogBase

/-- Embeds `getMaxAvailable`: `this.serverResources?.available?.[resource] || 0` —
a missing `available` block reads as 0 (and `|| 0` is the identity on
integer figures that are present, since only `0` is falsy). -/
def getMaxAvailable (serverAvailable : Option PodResources) (r : ResourceField) : Int :=
  (serverAvailable.map (fun a => a.get r)).getD 0

/-- Embeds `validateResources(resource, resources)`: negative figures and figures
exceeding the available amount produce an error message naming the
resource; otherwise the entry is removed from the error map. -/
def validateResources (serverAvailable : Option PodResources) (r : ResourceField)
    (resources : PodResources) : Option String :=
  let requested := resources.get r
  let available := getMaxAvailable serverAvailable r
  if requested < 0 then
    some (r.name ++ " cannot be negative")
  else if requested > available then
    some ("Requested " ++ r.name ++ " (" ++ toString requested ++
      ") exceeds available (" ++ toString available ++ ")")
  else
    none

/-- The `resourceErrors` map right after `validateAllResources(resources)`
ran: one entry per resource field whose validation failed. -/
def resourceErrors (serverAvailable : Option PodResources)
    (resources : PodResources) : List (ResourceField × String) :=
  resourceFields.filterMap fun r =>
    (validateResources serverAvailable r resources).map (fun e => (r, e))

/-- Embeds `hasResourceErrors()`: `Object.keys(this.resourceErrors).length > 0`. -/
def hasResourceErrors (serverAvailable : Option PodResources)
    (resources : PodResources) : Bool :=
  !(resourceErrors serverAvailable resources).isEmpty

/-- Embeds `validatePodName(podName)`: duplicate-name check against the endpoint's
existing pods; sets `nameError` to `'Pod name not available'` on a
duplicate and to `''` otherwise. -/
def validatePodNameError (existingPodIds : List String) (podName : String) : String :=
  if existingPodIds.any (fun pid => pid == podName) then "Pod name not available" else ""

/-- Embeds `hasErrors()`: resource errors or a non-empty `nameError`. -/
def hasErrors (serverAvailable : Option PodResources) (resources : PodResources)
    (nameError : String) : Bool :=
  hasResourceErrors serverAvailable resources || !(nameError == "")

end PodDialogBase

/-! ## DNS name validation
`ValidationRules.POD_NAME_PATTERN` in
`src/frontend/src/app/constants/app.constants.ts`:
`/^[a-z0-9]([a-z0-9-]*[a-z0-9])?$/`, and the DNS-subdomain regex
`/^[a-z0-9]([a-z0-9-]*[a-z0-9])?(\.[a-z0-9]([a-z0-9-]*[a-z0-9])?)*$/`
used by the namespace / pod-name format validators. -/

def isLowerAlnum (c : Char) : Bool :=
  ('a' ≤ c && c ≤ 'z') || ('0' ≤ c && c ≤ '9')

/-- Split a character list at every occurrence of `sep` — the semantics of
JavaScript `split` / `String.splitOn` for a one-character separator. -/
def splitOnChar (sep : Char) : List Char → List (List Char)
  | [] => [[]]
  | c :: cs =>
    match splitOnChar sep cs, c == sep with
    | rest, true => [] :: rest
    | [], false => [[c]]
    | r :: rs, false => (c :: r) :: rs

/-- JavaScript `String.prototype.trim()` on a character list (the inputs
relevant here are ASCII). -/
def trimChars (cs : List Char) : List Char :=
  ((cs.dropWhile Char.isWhitespace).reverse.dropWhile Char.isWhitespace).reverse

/-- Matches `[a-z0-9]([a-z0-9-]*[a-z0-9])?`: non-empty, every character a
lowercase alphanumeric or hyphen, first and last characters alphanumeric. -/
def dnsLabelChars (cs : List Char) : Bool :=
  !cs.isEmpty &&
    cs.all (fun c => isLowerAlnum c || c == '-') &&
    (match cs.head? with | some c => isLowerAlnum c | none => false) &&
    (match cs.getLast? with | some c => isLowerAlnum c | none => false)

def matchesDnsLabel (s : String) : Bool :=
  dnsLabelChars s.toList

/-- Embeds `ValidationRules.POD_NAME_PATTERN` — the lowercase
alphanumeric-and-hyphen DNS-label pattern. -/
def matchesPodNamePattern (s : String) : Bool :=
  matchesDnsLabel s

/-- The DNS-subdomain regex
`/^[a-z0-9]([a-z0-9-]*[a-z0-9])?(\.[a-z0-9]([a-z0-9-]*[a-z0-9])?)*$/`:
dot-separated DNS labels. -/
def matchesDnsSubdomain (s : String) : Bool :=
  (splitOnChar '.' s.toList).all dnsLabelChars

/-! ## AddPodDialogComponent (namespace/replicas variant)
Embedded from `src/frontend/src/app/add-pod-dialog/add-pod-dialog.ts`:
`validateNamespace`, `validateReplicas`, `onSubmit`. Replica counts are
JavaScript numbers that may be fractional, so they are embedded as
rationals. -/

namespace AddPodDialog

structure Form where
  Resources : PodResources
  nsp : String
  replicas : ℚ
  image_url : String
deriving DecidableEq

def reservedNamespaces : List String :=
  ["kube-system", "kube-public", "kube-node-lease"]

/-- Embeds `validateNamespace(namespace)`: empty is allowed (defaults server-side);
otherwise the trimmed name must be at most 253 characters, match the
DNS-subdomain pattern, and not be a reserved namespace. -/
def validateNamespace (nsp : String) : Option String :=
  if nsp == "" || (trimChars nsp.toList).isEmpty then
    none
  else
    let trimmed := trimChars nsp.toList
    if trimmed.length > 253 then
      some "Namespace must be 253 characters or less"
    else if !(splitOnChar '.' trimmed).all dnsLabelChars then
      some ("Namespace must contain only lowercase alphanumeric characters, " ++
        "hyphens, and dots. Must start and end with alphanumeric character.")
    else if reservedNamespaces.any (fun n => n.toList == trimmed) then
      some "Cannot use reserved namespace names"
    else
      none

/-- Embeds `validateReplicas(replicas)`: `!replicas || replicas < 1` (`!replicas`
is true exactly for the number 0 here), then `replicas > 100`, then
`!Number.isInteger(replicas)`. -/
def validateReplicas (replicas : ℚ) : Option String :=
  if replicas == 0 || replicas < 1 then
    some "Replica count must be at least 1"
  else if replicas > 100 then
    some "Replica count cannot exceed 100"
  else if !(replicas.den == 1) then
    some "Replica count must be a whole number"
  else
    none

/-- Embeds `onSubmit()`: re-runs all three validators on the current values and
emits the `podCreated` event payload only when no error is set. -/
def onSubmit (serverAvailable : Option PodResources) (f : Form) : Option Form :=
  if PodDialogBase.hasResourceErrors serverAvailable f.Resources ||
      (validateNamespace f.nsp).isSome || (validateReplicas f.replicas).isSome then
    none
  else
    some f

end AddPodDialog

/-! ## EditPodDialogComponent
Embedded from the `PodDialogBase`-derived editor in
`src/frontend/src/app/edit-pod-dialog/edit-pod-dialog.ts` (second
segment): `onSubmit` revalidates all resources and emits `podUpdated`
only when the error map is empty. -/

namespace EditPodDialog

def onSubmit (serverAvailable : Option PodResources)
    (requested : PodResources) : Option PodResources :=
  if PodDialogBase.hasResourceErrors serverAvailable requested then
    none
  else
    some requested

end EditPodDialog

/-! ## AddPodDialogComponent (pod-name variant)
Embedded from `src/unnamed/part_018`. The field-change handler
`onPodNameChange` calls the base class's `validatePodName` (the
duplicate check, which sets `nameError`); the format validator
`validatepodName` (lines 163-190) is never invoked — no call site uses
its lowercase-p spelling — so `PodNameError` is never set, and
`onSubmit`'s gate `hasResourceErrors() || PodNameError || replicaError`
reduces to the resource check. The Deploy button is additionally
disabled while `!podForm.form.valid || hasErrors()`, where `hasErrors`
covers `nameError`. -/

namespace AddPodDialogNamed

structure Form where
  Resources : PodResources
  pod_name : String
  image_url : String
deriving DecidableEq

/-- Embeds `validatepodName(PodName)` — dead code in the component (never called):
empty allowed, untrimmed length at most 253, trimmed name must match the
DNS-subdomain pattern. -/
def validatepodNameOk (podName : String) : Bool :=
  if podName == "" || (trimChars podName.toList).isEmpty then
    true
  else if podName.toList.length > 253 then
    false
  else
    (splitOnChar '.' (trimChars podName.toList)).all dnsLabelChars

/-- One submission of the dialog: the form must be valid (required fields
non-empty) and the Deploy button enabled (`!hasErrors()`, with
`nameError` as set by the duplicate check on the current name), then
`onSubmit` revalidates resources and gates on
`hasResourceErrors() || PodNameError || replicaError`, of which only the
first can be non-empty. The result is the emitted `podCreated` payload,
or `none` when submission is blocked. -/
def submit (serverAvailable : Option PodResources) (existingPodIds : List String)
    (f : Form) : Option Form :=
  -- template: required `pod_name` and `image_url` inputs
  if f.pod_name == "" || f.image_url == "" then
    none
  -- template: [disabled]="!podForm.form.valid || hasErrors()"
  else if PodDialogBase.hasErrors serverAvailable f.Resources
      (PodDialogBase.validatePodNameError existingPodIds f.pod_name) then
    none
  -- onSubmit(): gate on hasResourceErrors() || PodNameError || replicaError
  else if PodDialogBase.hasResourceErrors serverAvailable f.Resources then
    none
  else
    some f

end AddPodDialogNamed

/-! ## Mode configuration
Embedded from `src/frontend/src/app/config/mode.config.ts`:
`ResourceManagerMode` and the `ModeManager` mode predicates. -/

inductive ResourceManagerMode where
  | demo
  | localK8s
  | cloudK8s
deriving DecidableEq, Repr, Fintype

namespace ModeManager

/-- Embeds `isDemoMode()`: `this.currentMode === ResourceManagerMode.DEMO`. -/
def isDemoMode (currentMode : Option ResourceManagerMode) : Bool :=
  currentMode = some .demo

/-- Embeds `isRealKubernetesMode()`: current mode is `LOCAL_K8S` or `CLOUD_K8S`. -/
def isRealKubernetesMode (currentMode : Option ResourceManagerMode) : Bool :=
  currentMode = some .localK8s || currentMode = some .cloudK8s

end ModeManager

/-! ## App component state
Embedded from `src/unnamed/part_012` (`App`): the fields the settled
claims touch, the consistency / cluster-status fetch handlers, and the
dashboard aggregation getters. Server objects mirror the optional
chaining in the getters (`s.resources?.total?.cpus || 0`): every level
may be absent. -/

structure ResourceFigures where
  cpus : Option Int
  gpus : Option Int
  ram_gb : Option Int
  storage_gb : Option Int
deriving DecidableEq, Repr

structure ServerResources where
  total : Option ResourceFigures
  available : Option ResourceFigures
  actual_usage : Option ResourceFigures
deriving DecidableEq, Repr

structure ServerPod where
  pod_id : String
  owner : String
deriving DecidableEq, Repr

structure Server where
  id : String
  name : String
  resources : Option ServerResources
  pods : Option (List ServerPod)
deriving DecidableEq, Repr

/-- Outcome of one HTTP subscription: the parsed success payload, or an
error whose body may carry a message. -/
inductive FetchResult (α : Type) where
  | ok (value : α)
  | error (message : Option String)

namespace App

structure State where
  servers : List Server
  selectedServer : Option Server
  consistencyMessage : String
  podMessage : String
  clusterStatus : String
  showModeSelector : Bool
  currentMode : Option ResourceManagerMode
deriving Repr

/-- Embeds `checkConsistency()`: stores `res.message`, or
`err?.error?.message || 'data inconsistency error'` on failure, into
`consistencyMessage`; nothing else is touched. -/
def checkConsistency (st : State) (res : FetchResult String) : State :=
  match res with
  | .ok message => { st with consistencyMessage := message }
  | .error message => { st with consistencyMessage := message.getD "data inconsistency error" }

/-- Embeds `checkClusterStatus()`: stores `res.status`, or `'connection_failed'`
on any failed fetch, into `clusterStatus`. -/
def checkClusterStatus (st : State) (res : FetchResult String) : State :=
  match res with
  | .ok status => { st with clusterStatus := status }
  | .error _ => { st with clusterStatus := "connection_failed" }

/-- Embeds the optional chaining `s.resources?.total?.cpus || 0` and friends. -/
def figureOr0 (res : Option ServerResources)
    (block : ServerResources → Option ResourceFigures)
    (field : ResourceFigures → Option Int) : Int :=
  ((res.bind block).bind field).getD 0

/-- Embeds `get allocatedCPUs()`: `Math.max(0, reduce (+ total.cpus - available.cpus) 0)`. -/
def allocatedCPUs (servers : List Server) : Int :=
  max 0 (servers.foldl
    (fun acc s => acc + (figureOr0 s.resources (fun r => r.total) (fun f => f.cpus) -
      figureOr0 s.resources (fun r => r.available) (fun f => f.cpus))) 0)

/-- Embeds `get allocatedGPUs()`: `Math.max(0, reduce (+ total.gpus - available.gpus) 0)`. -/
def allocatedGPUs (servers : List Server) : Int :=
  max 0 (servers.foldl
    (fun acc s => acc + (figureOr0 s.resources (fun r => r.total) (fun f => f.gpus) -
      figureOr0 s.resources (fun r => r.available) (fun f => f.gpus))) 0)

end App

/-! ## Backend core (modelled from the spec)
The Flask backend implementing the Resource Ledger, Server Manager,
Consistency Checker and Health Monitor is not part of the source
snapshot under `src/` — only its documentation
(`src/backend/README.md`, `src/backend/apipayloads/README.md`,
`src/unnamed/part_003`, `src/ENVIRONMENT_BASED_FILTERING.md`) and start
scripts are. The definitions in this namespace are therefore modelled
from the specification, faithful to its words, as marked on each one. -/

namespace Backend

/-- Structure `PodRecord` — per spec §3: `pod_id`, `owner`, `requested`, image
reference (identity fields only; timestamps are irrelevant to the
claims settled here). -/
structure PodRecord where
  pod_id : String
  owner : String
  requested : PodResources
  image_url : String
deriving DecidableEq, Repr

/-- Structure `ResourceLedgerEntry` — per spec §3: declared `total` and current
`available` per resource (the display-only `actual_usage` is omitted;
it never enters admission decisions). -/
structure Ledger where
  total : PodResources
  available : PodResources
deriving DecidableEq, Repr

/-- One endpoint's ledger plus its pod list. -/
structure EndpointState where
  ledger : Ledger
  pods : List PodRecord
deriving DecidableEq, Repr

/-- Modelled from the spec: image-reference well-formedness. The backend
source is absent from `src/`; `src/backend/apipayloads/README.md`
documents the check as "Image URL: Must start with `https://` and
contain a version tag (`:latest`, `:1.0`, etc.)". -/
def imageUrlWellFormed (url : String) : Bool :=
  url.toList.take 8 == "https://".toList && (url.toList.drop 8).contains ':'

/-- The sum of `requested[r]` over a pod list. -/
def sumRequested (pods : List PodRecord) (r : ResourceField) : Int :=
  (pods.map (fun p => p.requested.get r)).sum

structure CreateRequest where
  pod_name : String
  owner : String
  requested : PodResources
  image_url : String
deriving DecidableEq, Repr

/-- Modelled from the spec: the admission validation of a create request
(spec §4.2, §4.4, §7) — a `ValidationError` for a duplicate pod name,
a negative requested resource, or a malformed image reference, and
`InsufficientResources` when some requested figure exceeds the
endpoint's current `available` figure; all detected before any
mutation. -/
def validateCreate (st : EndpointState) (req : CreateRequest) : Option String :=
  if st.pods.any (fun p => p.pod_id == req.pod_name) then
    some "ValidationError: duplicate pod name"
  else if !(resourceFields.all (fun r => decide (0 ≤ req.requested.get r))) then
    some "ValidationError: negative requested resources"
  else if !imageUrlWellFormed req.image_url then
    some "ValidationError: malformed image reference"
  else if !(resourceFields.all
      (fun r => decide (req.requested.get r ≤ st.ledger.available.get r))) then
    some "InsufficientResources"
  else
    none

/-- Modelled from the spec: `createPod` through the Server Manager's
`execute` choke point (spec §4.4) — admission first; on success exactly
one pod record is added and the ledger `available` is debited by the
requested figures; on any admission failure both are left untouched. -/
def createPod (st : EndpointState) (req : CreateRequest) :
    EndpointState × Except String PodRecord :=
  match validateCreate st req with
  | some err => (st, .error err)
  | none =>
    let p : PodRecord := ⟨req.pod_name, req.owner, req.requested, req.image_url⟩
    ({ ledger := { total := st.ledger.total,
                   available := st.ledger.available.sub req.requested },
       pods := p :: st.pods },
     .ok p)

/-- Remove the first pod with the given id. -/
def removePod : List PodRecord → String → List PodRecord
  | [], _ => []
  | p :: ps, pid => if p.pod_id == pid then ps else p :: removePod ps pid

/-- Modelled from the spec: `deletePod` — `NotFound` for an unknown pod id,
otherwise the pod record is removed and its requested figures are
credited back to the ledger `available` (spec §3: "every create/delete
must atomically update exactly one PodRecord and exactly one ledger
entry, or neither"). -/
def deletePod (st : EndpointState) (pid : String) :
    EndpointState × Except String Unit :=
  match st.pods.find? (fun p => p.pod_id == pid) with
  | none => (st, .error "NotFound")
  | some p =>
    ({ ledger := { total := st.ledger.total,
                   available := st.ledger.available.add p.requested },
       pods := removePod st.pods pid },
     .ok ())

/-- One reserve (pod create) or release (pod delete) operation on an
endpoint's ledger. -/
inductive Op where
  | create (req : CreateRequest)
  | delete (pid : String)

def applyOp (st : EndpointState) : Op → EndpointState
  | .create req => (createPod st req).1
  | .delete pid => (deletePod st pid).1

def runOps (st : EndpointState) (ops : List Op) : EndpointState :=
  ops.foldl applyOp st

/-- The state of a freshly configured endpoint: `available = total`, no
pods. -/
def initState (total : PodResources) : EndpointState :=
  ⟨⟨total, total⟩, []⟩

/-- The ledger accounting invariant: every recorded pod requests
non-negative figures, `available` is exactly `total` minus the sum of
the active pods' requests, and `available` is non-negative. -/
def WF (st : EndpointState) : Prop :=
  (∀ p ∈ st.pods, ∀ r, 0 ≤ p.requested.get r) ∧
  (∀ r, st.ledger.available.get r =
    st.ledger.total.get r - sumRequested st.pods r) ∧
  (∀ r, 0 ≤ st.ledger.available.get r)

/-- Modelled from the spec: the Ledger's `reconcile` (spec §4.3) —
the per-resource delta between `total - sum(requested by active pods)`
and the stored `available`; returned as a report, never applied. -/
def reconcileDelta (st : EndpointState) (r : ResourceField) : Int :=
  (st.ledger.total.get r - sumRequested st.pods r) - st.ledger.available.get r

def consistencyPassMessage : String := "All data is consistent"

def consistencyDriftMessage : String := "Data inconsistency detected"

/-- Modelled from the spec: the Consistency Checker (spec §4.6) — a
read-only diagnostic returning one pass-or-drift message and the
endpoint state unchanged. -/
def consistencyCheck (st : EndpointState) : String × EndpointState :=
  (if resourceFields.all (fun r => reconcileDelta st r == 0) then
    consistencyPassMessage
  else
    consistencyDriftMessage, st)

/-! ### Health Monitor (modelled from the spec)
Spec §4.5 and the repository's health-monitoring documentation
(`src/unnamed/part_003`). -/

inductive CheckStatus where
  | pass
  | warn
  | fail
deriving DecidableEq, Repr, Fintype

inductive ClusterStatus where
  | healthy
  | degraded
  | unhealthy
  | connection_failed
  | auth_failed
  | not_running
deriving DecidableEq, Repr

/-- Modelled from the spec: aggregate derivation over the four check
results — any `fail` gives `unhealthy`; otherwise any `warn` gives
`degraded`; otherwise `healthy`. -/
def deriveAggregate (c1 c2 c3 c4 : CheckStatus) : ClusterStatus :=
  if c1 == .fail || c2 == .fail || c3 == .fail || c4 == .fail then
    .unhealthy
  else if c1 == .warn || c2 == .warn || c3 == .warn || c4 == .warn then
    .degraded
  else
    .healthy

/-- Outcome of the lightweight connectivity probe. -/
inductive ConnectivityOutcome where
  | reachable
  | unreachable
  | authRejected
deriving DecidableEq, Repr

/-- One poll cycle's snapshot: the connectivity result, the other three
check results (`none` when the check was skipped this cycle), and the
aggregate. -/
structure PollSnapshot where
  connectivity : CheckStatus
  api_server : Option CheckStatus
  node_status : Option CheckStatus
  pod_status : Option CheckStatus
  aggregate : ClusterStatus
deriving DecidableEq, Repr

/-- Modelled from the spec: one Health Monitor poll cycle (spec §4.5) —
a failed connectivity check short-circuits the remaining three checks
and sets the aggregate to `connection_failed`, or `auth_failed` when
the failure is an authentication rejection; otherwise all four checks
run and the aggregate is derived from their results. -/
def pollCycle (conn : ConnectivityOutcome) (api node pod : CheckStatus) : PollSnapshot :=
  match conn with
  | .unreachable => ⟨.fail, none, none, none, .connection_failed⟩
  | .authRejected => ⟨.fail, none, none, none, .auth_failed⟩
  | .reachable => ⟨.pass, some api, some node, some pod, deriveAggregate .pass api node pod⟩

/-! ### Server Manager endpoint listing (modelled from the spec) -/

/-- Structure `EndpointDescriptor` — per spec §3, restricted to the fields the
environment-separation claim touches. -/
structure EndpointDescriptor where
  id : String
  name : String
  environment : String
deriving DecidableEq, Repr

/-- Modelled from the spec: `listEndpoints(environmentFilter)` (spec §4.4,
`src/ENVIRONMENT_BASED_FILTERING.md`) — only endpoints whose
`environment` tag equals the filter are returned. -/
def listEndpoints (endpoints : List EndpointDescriptor)
    (environmentFilter : String) : List EndpointDescriptor :=
  endpoints.filter (fun e => e.environment == environmentFilter)

end Backend

/-! ## Helper lemmas -/

theorem PodDialogBase.getMaxAvailable_some (av : PodResources) (r : ResourceField) :
    PodDialogBase.getMaxAvailable (some av) r = av.get r := rfl

/-- A negative requested figure yields the negative-amount error. -/
theorem PodDialogBase.validateResources_neg {req : PodResources} {r : ResourceField}
    (sa : Option PodResources) (h : req.get r < 0) :
    PodDialogBase.validateResources sa r req = some (r.name ++ " cannot be negative") := by
  unfold PodDialogBase.validateResources
  rw [if_pos h]

/-- A non-negative requested figure exceeding the available one yields the
exceeds error, which names the resource. -/
theorem PodDialogBase.validateResources_exceeds {av req : PodResources} {r : ResourceField}
    (h0 : 0 ≤ req.get r) (h : av.get r < req.get r) :
    PodDialogBase.validateResources (some av) r req =
      some ("Requested " ++ r.name ++ " (" ++ toString (req.get r) ++
        ") exceeds available (" ++ toString (av.get r) ++ ")") := by
  unfold PodDialogBase.validateResources PodDialogBase.getMaxAvailable
  simp only [Option.map_some', Option.getD_some]
  rw [if_neg (by omega), if_pos (by omega)]

/-- Within bounds, validation passes. -/
theorem PodDialogBase.validateResources_none {av req : PodResources} {r : ResourceField}
    (h0 : 0 ≤ req.get r) (h : req.get r ≤ av.get r) :
    PodDialogBase.validateResources (some av) r req = none := by
  unfold PodDialogBase.validateResources PodDialogBase.getMaxAvailable
  simp only [Option.map_some', Option.getD_some]
  rw [if_neg (by omega), if_neg (by omega)]

/-- Any failing per-resource validation puts an entry into the error map. -/
theorem PodDialogBase.hasResourceErrors_of_some {sa : Option PodResources}
    {req : PodResources} {r : ResourceField} {e : String}
    (h : PodDialogBase.validateResources sa r req = some e) :
    PodDialogBase.hasResourceErrors sa req = true := by
  have hmem : (r, e) ∈ PodDialogBase.resourceErrors sa req := by
    unfold PodDialogBase.resourceErrors
    refine List.mem_filterMap.mpr ⟨r, ?_, by rw [h]; rfl⟩
    cases r <;> simp [resourceFields]
  unfold PodDialogBase.hasResourceErrors
  cases hl : PodDialogBase.resourceErrors sa req with
  | nil => rw [hl] at hmem; cases hmem
  | cons a as => simp [List.isEmpty]

/-- When every figure is within bounds, the error map is empty. -/
theorem PodDialogBase.hasResourceErrors_eq_false {av req : PodResources}
    (h : ∀ r, 0 ≤ req.get r ∧ req.get r ≤ av.get r) :
    PodDialogBase.hasResourceErrors (some av) req = false := by
  have hall : ∀ r, PodDialogBase.validateResources (some av) r req = none :=
    fun r => PodDialogBase.validateResources_none (h r).1 (h r).2
  unfold PodDialogBase.hasResourceErrors PodDialogBase.resourceErrors
  simp [resourceFields, hall]

/-- An existing resource error blocks the add dialog's submission. -/
theorem AddPodDialog.onSubmit_none_of_resourceErrors {av : PodResources}
    {f : AddPodDialog.Form}
    (h : PodDialogBase.hasResourceErrors (some av) f.Resources = true) :
    AddPodDialog.onSubmit (some av) f = none := by
  unfold AddPodDialog.onSubmit
  rw [if_pos (by rw [h]; rfl)]

/-- The named add dialog never emits while `hasErrors()` holds. -/
theorem AddPodDialogNamed.submit_none_of_hasErrors {av : PodResources}
    {ids : List String} {f : AddPodDialogNamed.Form}
    (h : PodDialogBase.hasErrors (some av) f.Resources
      (PodDialogBase.validatePodNameError ids f.pod_name) = true) :
    AddPodDialogNamed.submit (some av) ids f = none := by
  by_cases h1 : (f.pod_name == "" || f.image_url == "") = true
  · unfold AddPodDialogNamed.submit
    rw [if_pos h1]
  · unfold AddPodDialogNamed.submit
    rw [if_neg h1, if_pos h]

/-- Characterization of a create request passing the backend admission
validation. -/
theorem Backend.validateCreate_eq_none {st : Backend.EndpointState}
    {cr : Backend.CreateRequest} (h : Backend.validateCreate st cr = none) :
    st.pods.any (fun p => p.pod_id == cr.pod_name) = false ∧
    (∀ r, 0 ≤ cr.requested.get r) ∧
    Backend.imageUrlWellFormed cr.image_url = true ∧
    (∀ r, cr.requested.get r ≤ st.ledger.available.get r) := by
  unfold Backend.validateCreate at h
  split at h
  · cases h
  · next hdup =>
    split at h
    · cases h
    · next hneg =>
      split at h
      · cases h
      · next himg =>
        split at h
        · cases h
        · next havail =>
          refine ⟨by simpa using hdup, ?_, by simpa using himg, ?_⟩
          · intro r
            have hall : resourceFields.all (fun r => decide (0 ≤ cr.requested.get r)) = true := by
              revert hneg
              cases resourceFields.all (fun r => decide (0 ≤ cr.requested.get r)) <;> simp
            have := List.all_eq_true.mp hall r (by cases r <;> simp [resourceFields])
            exact of_decide_eq_true this
          · intro r
            have hall : resourceFields.all
                (fun r => decide (cr.requested.get r ≤ st.ledger.available.get r)) = true := by
              revert havail
              cases resourceFields.all
                (fun r => decide (cr.requested.get r ≤ st.ledger.available.get r)) <;> simp
            have := List.all_eq_true.mp hall r (by cases r <;> simp [resourceFields])
            exact of_decide_eq_true this

/-- An admission-rejected create leaves the endpoint state untouched and
produces no pod record. -/
theorem Backend.createPod_rejected {st : Backend.EndpointState}
    {cr : Backend.CreateRequest} (h : Backend.validateCreate st cr ≠ none) :
    (Backend.createPod st cr).1 = st ∧ (Backend.createPod st cr).2.isOk = false := by
  unfold Backend.createPod
  cases hv : Backend.validateCreate st cr with
  | none => exact absurd hv h
  | some e => exact ⟨rfl, rfl⟩

/-! ## Claim theorems -/

/-- C1: For every create or update pod submission and every resource `r`,
a requested amount exceeding the endpoint's currently reported available
amount is rejected with a validation error naming `r`, no
pod-created/pod-updated event is emitted, and the (spec-modelled) backend
leaves the ledger and pod list unchanged; when every requested amount is
between 0 and the available amount inclusive, the admission check passes
(no resource error is recorded). -/
theorem create_update_admission_gate
    (av req : PodResources) (r : ResourceField) (f : AddPodDialog.Form)
    (st : Backend.EndpointState) (cr : Backend.CreateRequest) :
    (0 ≤ req.get r → av.get r < req.get r →
      PodDialogBase.validateResources (some av) r req =
        some ("Requested " ++ r.name ++ " (" ++ toString (req.get r) ++
          ") exceeds available (" ++ toString (av.get r) ++ ")")) ∧
    (av.get r < f.Resources.get r → AddPodDialog.onSubmit (some av) f = none) ∧
    (av.get r < req.get r → EditPodDialog.onSubmit (some av) req = none) ∧
    (st.ledger.available.get r < cr.requested.get r →
      (Backend.createPod st cr).1 = st ∧ (Backend.createPod st cr).2.isOk = false) ∧
    ((∀ s, 0 ≤ req.get s ∧ req.get s ≤ av.get s) →
      PodDialogBase.hasResourceErrors (some av) req = false) := by
  have exceedsSome : ∀ (req' : PodResources), av.get r < req'.get r →
      ∃ e, PodDialogBase.validateResources (some av) r req' = some e := by
    intro req' hlt
    by_cases hneg : req'.get r < 0
    · exact ⟨_, PodDialogBase.validateResources_neg _ hneg⟩
    · exact ⟨_, PodDialogBase.validateResources_exceeds (by omega) hlt⟩
  refine ⟨fun h0 h => PodDialogBase.validateResources_exceeds h0 h, ?_, ?_, ?_, ?_⟩
  · intro h
    obtain ⟨e, he⟩ := exceedsSome _ h
    exact AddPodDialog.onSubmit_none_of_resourceErrors
      (PodDialogBase.hasResourceErrors_of_some he)
  · intro h
    obtain ⟨e, he⟩ := exceedsSome _ h
    unfold EditPodDialog.onSubmit
    rw [if_pos (PodDialogBase.hasResourceErrors_of_some he)]
  · intro h
    refine Backend.createPod_rejected (fun hnone => ?_)
    have := (Backend.validateCreate_eq_none hnone).2.2.2 r
    omega
  · exact fun h => PodDialogBase.hasResourceErrors_eq_false h

/-- Witness for C1 at concrete inputs: requesting 5 GPUs with 4 available
is rejected with the error naming `gpus` and blocks both dialogs and the
backend create; requesting 2/8/50 against 4/16/100 passes admission. -/
theorem create_update_admission_gate_witness :
    PodDialogBase.validateResources (some ⟨4, 16, 100⟩) .gpus ⟨5, 16, 100⟩ =
      some ("Requested " ++ ResourceField.gpus.name ++ " (" ++
        toString ((5 : Int)) ++ ") exceeds available (" ++ toString ((4 : Int)) ++ ")") ∧
    AddPodDialog.onSubmit (some ⟨4, 16, 100⟩)
      ⟨⟨5, 16, 100⟩, "ns1", 1, "https://docker.io/nginx:latest"⟩ = none ∧
    EditPodDialog.onSubmit (some ⟨4, 16, 100⟩) ⟨5, 16, 100⟩ = none ∧
    (Backend.createPod (Backend.initState ⟨8, 64, 100⟩)
      ⟨"p1", "o", ⟨9, 1, 1⟩, "https://docker.io/nginx:latest"⟩).1 =
        Backend.initState ⟨8, 64, 100⟩ ∧
    PodDialogBase.hasResourceErrors (some ⟨4, 16, 100⟩) ⟨2, 8, 50⟩ = false := by
  have h := create_update_admission_gate ⟨4, 16, 100⟩ ⟨5, 16, 100⟩ .gpus
    ⟨⟨5, 16, 100⟩, "ns1", 1, "https://docker.io/nginx:latest"⟩
    (Backend.initState ⟨8, 64, 100⟩)
    ⟨"p1", "o", ⟨9, 1, 1⟩, "https://docker.io/nginx:latest"⟩
  have h2 := create_update_admission_gate ⟨4, 16, 100⟩ ⟨2, 8, 50⟩ .gpus
    ⟨⟨2, 8, 50⟩, "ns1", 1, "https://docker.io/nginx:latest"⟩
    (Backend.initState ⟨8, 64, 100⟩)
    ⟨"p1", "o", ⟨2, 8, 50⟩, "https://docker.io/nginx:latest"⟩
  exact ⟨h.1 (by decide) (by decide), h.2.1 (by decide), h.2.2.1 (by decide),
    (h.2.2.2.1 (by decide)).1, h2.2.2.2.2 (by decide)⟩

/-- C3: The aggregate health status is `unhealthy` when any of the four
checks fails, `degraded` when none fails but at least one warns, and
`healthy` when all four pass; in particular `[pass, warn, pass, pass]`
gives `degraded`, `[fail, pass, pass, pass]` gives `unhealthy`, and all
`pass` gives `healthy`. -/
theorem health_aggregation (c1 c2 c3 c4 : Backend.CheckStatus) :
    ((c1 = .fail ∨ c2 = .fail ∨ c3 = .fail ∨ c4 = .fail) →
      Backend.deriveAggregate c1 c2 c3 c4 = .unhealthy) ∧
    (¬(c1 = .fail ∨ c2 = .fail ∨ c3 = .fail ∨ c4 = .fail) →
      (c1 = .warn ∨ c2 = .warn ∨ c3 = .warn ∨ c4 = .warn) →
      Backend.deriveAggregate c1 c2 c3 c4 = .degraded) ∧
    (c1 = .pass → c2 = .pass → c3 = .pass → c4 = .pass →
      Backend.deriveAggregate c1 c2 c3 c4 = .healthy) ∧
    Backend.deriveAggregate .pass .warn .pass .pass = .degraded ∧
    Backend.deriveAggregate .fail .pass .pass .pass = .unhealthy ∧
    Backend.deriveAggregate .pass .pass .pass .pass = .healthy := by
  cases c1 <;> cases c2 <;> cases c3 <;> cases c4 <;> decide

/-- Witness for C3: the three spec instances obtained from the theorem. -/
theorem health_aggregation_witness :
    Backend.deriveAggregate .pass .warn .pass .pass = .degraded ∧
    Backend.deriveAggregate .fail .pass .pass .pass = .unhealthy ∧
    Backend.deriveAggregate .pass .pass .pass .pass = .healthy := by
  refine ⟨(health_aggregation .pass .warn .pass .pass).2.1 (by decide) (by decide),
    (health_aggregation .fail .pass .pass .pass).1 (Or.inl rfl),
    (health_aggregation .pass .pass .pass .pass).2.2.1 rfl rfl rfl rfl⟩

/-- C7: A failed connectivity probe short-circuits the remaining three
checks for the cycle (they are skipped) and sets the aggregate to
`connection_failed`, or to `auth_failed` for an authentication
rejection; in the client, every failed cluster-status fetch sets the
displayed status to `connection_failed`. -/
theorem connectivity_short_circuit
    (api node pod : Backend.CheckStatus) (st : App.State) (msg : Option String) :
    Backend.pollCycle .unreachable api node pod =
      ⟨.fail, none, none, none, .connection_failed⟩ ∧
    Backend.pollCycle .authRejected api node pod =
      ⟨.fail, none, none, none, .auth_failed⟩ ∧
    (App.checkClusterStatus st (.error msg)).clusterStatus = "connection_failed" := by
  exact ⟨rfl, rfl, rfl⟩

/-- C8: Running the consistency check changes nothing except the stored
consistency message: the spec-modelled backend check returns a single
pass-or-drift message and leaves the endpoint state untouched, and the
client handler rewrites only `consistencyMessage`, leaving every other
field of the application state unchanged. -/
theorem consistency_check_frame
    (st : App.State) (res : FetchResult String) (est : Backend.EndpointState) :
    (App.checkConsistency st res).servers = st.servers ∧
    (App.checkConsistency st res).selectedServer = st.selectedServer ∧
    (App.checkConsistency st res).podMessage = st.podMessage ∧
    (App.checkConsistency st res).clusterStatus = st.clusterStatus ∧
    (App.checkConsistency st res).showModeSelector = st.showModeSelector ∧
    (App.checkConsistency st res).currentMode = st.currentMode ∧
    (Backend.consistencyCheck est).2 = est ∧
    ((Backend.consistencyCheck est).1 = Backend.consistencyPassMessage ∨
      (Backend.consistencyCheck est).1 = Backend.consistencyDriftMessage) := by
  refine ⟨?_, ?_, ?_, ?_, ?_, ?_, rfl, ?_⟩ <;>
    first
    | (cases res <;> rfl)
    | (unfold Backend.consistencyCheck
       split
       · exact Or.inl rfl
       · exact Or.inr rfl)

/-- Folding an accumulating sum over a list equals the sum of the mapped
list — relates the source's `reduce((acc, s) => acc + g(s), 0)` to a
mathematical sum. -/
theorem foldl_add_eq_sum {α : Type} (g : α → Int) (l : List α) (init : Int) :
    l.foldl (fun acc s => acc + g s) init = init + (l.map g).sum := by
  induction l generalizing init with
  | nil => simp
  | cons a as ih => simp [ih]; ring

/-- C9: Each of the dashboard's allocated-CPU and allocated-GPU figures
equals `max 0` of the sum over servers of `total - available` (missing
resource fields read as 0), and is therefore never negative — a server
reporting `available > total` is clamped away in the aggregate instead
of being displayed. -/
theorem dashboard_allocation_clamped (servers : List Server) :
    App.allocatedCPUs servers =
      max 0 ((servers.map (fun s =>
        App.figureOr0 s.resources (fun r => r.total) (fun f => f.cpus) -
        App.figureOr0 s.resources (fun r => r.available) (fun f => f.cpus))).sum) ∧
    App.allocatedGPUs servers =
      max 0 ((servers.map (fun s =>
        App.figureOr0 s.resources (fun r => r.total) (fun f => f.gpus) -
        App.figureOr0 s.resources (fun r => r.available) (fun f => f.gpus))).sum) ∧
    0 ≤ App.allocatedCPUs servers ∧
    0 ≤ App.allocatedGPUs servers ∧
    App.allocatedGPUs
      [⟨"s1", "srv", some ⟨some ⟨none, some 2, none, none⟩,
        some ⟨none, some 5, none, none⟩, none⟩, none⟩] = 0 := by
  refine ⟨?_, ?_, le_max_left 0 _, le_max_left 0 _, by decide⟩
  · unfold App.allocatedCPUs
    rw [foldl_add_eq_sum]
    simp
  · unfold App.allocatedGPUs
    rw [foldl_add_eq_sum]
    simp

/-- C10: A pod-creation submission is accepted only with an integer
replica count between 1 and 100 inclusive — `validateReplicas` passes
exactly on such values — and any replica error blocks `onSubmit`, so no
`podCreated` event is emitted. -/
theorem replica_count_gate (q : ℚ) (av : Option PodResources) (f : AddPodDialog.Form) :
    (AddPodDialog.validateReplicas q = none ↔ 1 ≤ q ∧ q ≤ 100 ∧ q.den = 1) ∧
    ((AddPodDialog.validateReplicas f.replicas).isSome = true →
      AddPodDialog.onSubmit av f = none) := by
  constructor
  · unfold AddPodDialog.validateReplicas
    constructor
    · intro h
      by_cases h1 : (q == 0 || q < 1 : Bool) = true
      · rw [if_pos h1] at h; cases h
      · rw [if_neg h1] at h
        by_cases h2 : q > 100
        · rw [if_pos h2] at h; cases h
        · rw [if_neg h2] at h
          by_cases h3 : (!(q.den == 1) : Bool) = true
          · rw [if_pos h3] at h; cases h
          · have hden : q.den = 1 := by simpa using h3
            have hle : ¬(q < 1) := by
              intro hlt
              exact h1 (by simp [hlt])
            exact ⟨not_lt.mp hle, not_lt.mp h2, hden⟩
    · rintro ⟨h1, h2, h3⟩
      rw [if_neg, if_neg, if_neg]
      · simp [h3]
      · simpa using not_lt.mpr h2
      · simp only [Bool.or_eq_true, beq_iff_eq, decide_eq_true_eq, not_or]
        constructor
        · intro h0; rw [h0] at h1; norm_num at h1
        · exact not_lt.mpr h1
  · intro h
    unfold AddPodDialog.onSubmit
    rw [if_pos (by rw [h]; simp)]

/-- Witness for C10: replica count 3 passes; the fractional count 101/2
and the zero count are rejected and block submission. -/
theorem replica_count_gate_witness :
    AddPodDialog.validateReplicas 3 = none ∧
    AddPodDialog.onSubmit (some ⟨4, 16, 100⟩)
      ⟨⟨1, 1, 1⟩, "ns1", mkRat 101 2, "https://docker.io/nginx:latest"⟩ = none ∧
    AddPodDialog.onSubmit (some ⟨4, 16, 100⟩)
      ⟨⟨1, 1, 1⟩, "ns1", 0, "https://docker.io/nginx:latest"⟩ = none := by
  refine ⟨(replica_count_gate 3 none
      ⟨⟨1, 1, 1⟩, "ns1", 3, "https://docker.io/nginx:latest"⟩).1.mpr
      ⟨by norm_num, by norm_num, by norm_num⟩, ?_, ?_⟩
  · exact (replica_count_gate (mkRat 101 2) (some ⟨4, 16, 100⟩)
      ⟨⟨1, 1, 1⟩, "ns1", mkRat 101 2, "https://docker.io/nginx:latest"⟩).2 (by decide)
  · exact (replica_count_gate 0 (some ⟨4, 16, 100⟩)
      ⟨⟨1, 1, 1⟩, "ns1", 0, "https://docker.io/nginx:latest"⟩).2 (by decide)

/-- C6: Listing endpoints with the `demo` environment filter never
returns a `live`-tagged endpoint and vice versa; membership in a
listing depends only on membership in the configured set and the tag
(so the separation holds regardless of configuration order), and the
client's demo / real-Kubernetes mode predicates are mutually
exclusive. -/
theorem environment_separation (eps : List Backend.EndpointDescriptor)
    (e : Backend.EndpointDescriptor) (filt : String)
    (m : Option ResourceManagerMode) :
    (e ∈ Backend.listEndpoints eps "demo" → e.environment ≠ "live") ∧
    (e ∈ Backend.listEndpoints eps "live" → e.environment ≠ "demo") ∧
    (e ∈ Backend.listEndpoints eps filt ↔ e ∈ eps ∧ e.environment = filt) ∧
    (ModeManager.isDemoMode m && ModeManager.isRealKubernetesMode m) = false := by
  have hmem : ∀ g : String, e ∈ Backend.listEndpoints eps g ↔ e ∈ eps ∧ e.environment = g := by
    intro g
    unfold Backend.listEndpoints
    rw [List.mem_filter]
    simp
  refine ⟨?_, ?_, hmem filt, ?_⟩
  · intro h
    rw [(hmem "demo").mp h |>.2]
    decide
  · intro h
    rw [(hmem "live").mp h |>.2]
    decide
  · rcases m with _ | m
    · rfl
    · cases m <;> rfl

/-- Witness for C6 at a concrete two-endpoint configuration. -/
theorem environment_separation_witness :
    (⟨"demo-server-01", "Demo Server Alpha", "demo"⟩ :
      Backend.EndpointDescriptor).environment ≠ "live" ∧
    (⟨"azure-vm-01", "Azure VM MicroK8s", "live"⟩ :
      Backend.EndpointDescriptor) ∈
      Backend.listEndpoints
        [⟨"demo-server-01", "Demo Server Alpha", "demo"⟩,
         ⟨"azure-vm-01", "Azure VM MicroK8s", "live"⟩] "live" := by
  constructor
  · exact (environment_separation
      [⟨"demo-server-01", "Demo Server Alpha", "demo"⟩,
       ⟨"azure-vm-01", "Azure VM MicroK8s", "live"⟩]
      ⟨"demo-server-01", "Demo Server Alpha", "demo"⟩ "demo" none).1 (by decide)
  · exact ((environment_separation
      [⟨"demo-server-01", "Demo Server Alpha", "demo"⟩,
       ⟨"azure-vm-01", "Azure VM MicroK8s", "live"⟩]
      ⟨"azure-vm-01", "Azure VM MicroK8s", "live"⟩ "live" none).2.2.1).mpr
      ⟨by decide, rfl⟩

/-- C4: A malformed pod spec — a negative requested resource, a pod name
duplicating an existing pod's id on the endpoint, or (in the
spec-modelled backend) a malformed image reference — is rejected with a
validation error before any mutation: the dialogs emit no
create/update event, and the backend create leaves the endpoint state
untouched and returns an error. -/
theorem malformed_spec_rejected
    (av req : PodResources) (r : ResourceField) (ids : List String)
    (f : AddPodDialogNamed.Form) (st : Backend.EndpointState)
    (cr : Backend.CreateRequest) :
    (f.Resources.get r < 0 → AddPodDialogNamed.submit (some av) ids f = none) ∧
    (f.pod_name ∈ ids → AddPodDialogNamed.submit (some av) ids f = none) ∧
    (req.get r < 0 → EditPodDialog.onSubmit (some av) req = none) ∧
    (cr.requested.get r < 0 →
      (Backend.createPod st cr).1 = st ∧ (Backend.createPod st cr).2.isOk = false) ∧
    ((∃ p ∈ st.pods, p.pod_id = cr.pod_name) →
      (Backend.createPod st cr).1 = st ∧ (Backend.createPod st cr).2.isOk = false) ∧
    (Backend.imageUrlWellFormed cr.image_url = false →
      (Backend.createPod st cr).1 = st ∧ (Backend.createPod st cr).2.isOk = false) := by
  refine ⟨?_, ?_, ?_, ?_, ?_, ?_⟩
  · intro h
    have he := PodDialogBase.validateResources_neg (some av) h
    apply AddPodDialogNamed.submit_none_of_hasErrors
    unfold PodDialogBase.hasErrors
    rw [PodDialogBase.hasResourceErrors_of_some he]
    rfl
  · intro h
    apply AddPodDialogNamed.submit_none_of_hasErrors
    have hname : PodDialogBase.validatePodNameError ids f.pod_name =
        "Pod name not available" := by
      unfold PodDialogBase.validatePodNameError
      rw [if_pos (List.any_eq_true.mpr ⟨f.pod_name, h, by simp⟩)]
    unfold PodDialogBase.hasErrors
    rw [hname]
    simp
  · intro h
    have he := PodDialogBase.validateResources_neg (some av) h
    unfold EditPodDialog.onSubmit
    rw [if_pos (PodDialogBase.hasResourceErrors_of_some he)]
  · intro h
    refine Backend.createPod_rejected (fun hnone => ?_)
    have := (Backend.validateCreate_eq_none hnone).2.1 r
    omega
  · rintro ⟨p, hp, hid⟩
    refine Backend.createPod_rejected (fun hnone => ?_)
    have hdup := (Backend.validateCreate_eq_none hnone).1
    have : st.pods.any (fun p => p.pod_id == cr.pod_name) = true :=
      List.any_eq_true.mpr ⟨p, hp, by simp [hid]⟩
    rw [this] at hdup
    cases hdup
  · intro h
    refine Backend.createPod_rejected (fun hnone => ?_)
    have himg := (Backend.validateCreate_eq_none hnone).2.2.1
    rw [h] at himg
    cases himg

/-- Witness for C4 at concrete inputs: a negative GPU figure, a duplicate
name, and a tag-less non-https image reference are each rejected with
no event and no state change. -/
theorem malformed_spec_rejected_witness :
    AddPodDialogNamed.submit (some ⟨4, 16, 100⟩) ["web-1"]
      ⟨⟨-1, 1, 1⟩, "pod-a", "https://docker.io/nginx:latest"⟩ = none ∧
    AddPodDialogNamed.submit (some ⟨4, 16, 100⟩) ["web-1"]
      ⟨⟨1, 1, 1⟩, "web-1", "https://docker.io/nginx:latest"⟩ = none ∧
    EditPodDialog.onSubmit (some ⟨4, 16, 100⟩) ⟨1, -2, 1⟩ = none ∧
    (Backend.createPod
      ⟨⟨⟨8, 64, 100⟩, ⟨7, 63, 99⟩⟩, [⟨"p1", "o", ⟨1, 1, 1⟩, "https://docker.io/nginx:latest"⟩]⟩
      ⟨"p1", "o", ⟨1, 1, 1⟩, "https://docker.io/nginx:latest"⟩).1 =
      ⟨⟨⟨8, 64, 100⟩, ⟨7, 63, 99⟩⟩, [⟨"p1", "o", ⟨1, 1, 1⟩, "https://docker.io/nginx:latest"⟩]⟩ ∧
    (Backend.createPod (Backend.initState ⟨8, 64, 100⟩)
      ⟨"p2", "o", ⟨1, 1, 1⟩, "nginx:latest"⟩).2.isOk = false := by
  refine ⟨?_, ?_, ?_, ?_, ?_⟩
  · exact (malformed_spec_rejected ⟨4, 16, 100⟩ ⟨1, 1, 1⟩ .gpus ["web-1"]
      ⟨⟨-1, 1, 1⟩, "pod-a", "https://docker.io/nginx:latest"⟩
      (Backend.initState ⟨8, 64, 100⟩)
      ⟨"p2", "o", ⟨1, 1, 1⟩, "nginx:latest"⟩).1 (by decide)
  · exact (malformed_spec_rejected ⟨4, 16, 100⟩ ⟨1, 1, 1⟩ .gpus ["web-1"]
      ⟨⟨1, 1, 1⟩, "web-1", "https://docker.io/nginx:latest"⟩
      (Backend.initState ⟨8, 64, 100⟩)
      ⟨"p2", "o", ⟨1, 1, 1⟩, "nginx:latest"⟩).2.1 (by decide)
  · exact (malformed_spec_rejected ⟨4, 16, 100⟩ ⟨1, -2, 1⟩ .ram_gb ["web-1"]
      ⟨⟨1, 1, 1⟩, "pod-a", "https://docker.io/nginx:latest"⟩
      (Backend.initState ⟨8, 64, 100⟩)
      ⟨"p2", "o", ⟨1, 1, 1⟩, "nginx:latest"⟩).2.2.1 (by decide)
  · exact ((malformed_spec_rejected ⟨4, 16, 100⟩ ⟨1, 1, 1⟩ .gpus ["web-1"]
      ⟨⟨1, 1, 1⟩, "pod-a", "https://docker.io/nginx:latest"⟩
      ⟨⟨⟨8, 64, 100⟩, ⟨7, 63, 99⟩⟩, [⟨"p1", "o", ⟨1, 1, 1⟩, "https://docker.io/nginx:latest"⟩]⟩
      ⟨"p1", "o", ⟨1, 1, 1⟩, "https://docker.io/nginx:latest"⟩).2.2.2.2.1
      ⟨⟨"p1", "o", ⟨1, 1, 1⟩, "https://docker.io/nginx:latest"⟩, by decide, rfl⟩).1
  · exact ((malformed_spec_rejected ⟨4, 16, 100⟩ ⟨1, 1, 1⟩ .gpus ["web-1"]
      ⟨⟨1, 1, 1⟩, "pod-a", "https://docker.io/nginx:latest"⟩
      (Backend.initState ⟨8, 64, 100⟩)
      ⟨"p2", "o", ⟨1, 1, 1⟩, "nginx:latest"⟩).2.2.2.2.2 (by decide)).2

/-- C5 (code bug): the pod-creation flow emits `podCreated` for the pod
name `"my_pod"`, which matches neither `POD_NAME_PATTERN` nor even the
dialog's own (never-invoked) format validator — the component's
`onPodNameChange`/`onSubmit` call the base class's duplicate check
only, and the gate reads `PodNameError`, which nothing ever sets —
while a duplicate name does block submission. -/
theorem pod_creation_accepts_non_dns_name :
    matchesPodNamePattern "my_pod" = false ∧
    AddPodDialogNamed.validatepodNameOk "my_pod" = false ∧
    (AddPodDialogNamed.submit (some ⟨4, 16, 100⟩) ["web-1"]
      ⟨⟨1, 1, 1⟩, "my_pod", "https://docker.io/nginx:latest"⟩).isSome = true ∧
    AddPodDialogNamed.submit (some ⟨4, 16, 100⟩) ["web-1"]
      ⟨⟨1, 1, 1⟩, "web-1", "https://docker.io/nginx:latest"⟩ = none := by
  decide

/-! ## Ledger invariant lemmas -/

theorem Backend.sumRequested_nil (r : ResourceField) :
    Backend.sumRequested [] r = 0 := rfl

theorem Backend.sumRequested_cons (p : Backend.PodRecord)
    (l : List Backend.PodRecord) (r : ResourceField) :
    Backend.sumRequested (p :: l) r =
      p.requested.get r + Backend.sumRequested l r := by
  simp [Backend.sumRequested]

theorem Backend.sumRequested_nonneg {l : List Backend.PodRecord} {r : ResourceField}
    (h : ∀ p ∈ l, 0 ≤ p.requested.get r) : 0 ≤ Backend.sumRequested l r := by
  induction l with
  | nil => simp [Backend.sumRequested]
  | cons p ps ih =>
    rw [Backend.sumRequested_cons]
    have h1 := h p (by simp)
    have h2 := ih (fun q hq => h q (by simp [hq]))
    omega

theorem Backend.mem_removePod {l : List Backend.PodRecord} {pid : String}
    {q : Backend.PodRecord} (h : q ∈ Backend.removePod l pid) : q ∈ l := by
  induction l with
  | nil => simp [Backend.removePod] at h
  | cons p ps ih =>
    unfold Backend.removePod at h
    by_cases hc : (p.pod_id == pid) = true
    · rw [if_pos hc] at h
      exact List.mem_cons_of_mem _ h
    · rw [if_neg hc] at h
      rcases List.mem_cons.mp h with h1 | h2
      · exact h1 ▸ List.mem_cons_self _ _
      · exact List.mem_cons_of_mem _ (ih h2)

theorem Backend.sumRequested_removePod {l : List Backend.PodRecord} {pid : String}
    {p : Backend.PodRecord} (h : l.find? (fun q => q.pod_id == pid) = some p)
    (r : ResourceField) :
    Backend.sumRequested (Backend.removePod l pid) r =
      Backend.sumRequested l r - p.requested.get r := by
  induction l with
  | nil => cases h
  | cons q qs ih =>
    by_cases hc : (q.pod_id == pid) = true
    · simp only [List.find?_cons, hc] at h
      injection h with h
      subst h
      unfold Backend.removePod
      rw [if_pos hc, Backend.sumRequested_cons]
      omega
    · have hc' : (q.pod_id == pid) = false := by simpa using hc
      simp only [List.find?_cons, hc'] at h
      unfold Backend.removePod
      rw [if_neg hc, Backend.sumRequested_cons, Backend.sumRequested_cons, ih h]
      omega

theorem Backend.WF_initState {total : PodResources} (h : ∀ r, 0 ≤ total.get r) :
    Backend.WF (Backend.initState total) := by
  refine ⟨by simp [Backend.initState], ?_, h⟩
  intro r
  simp [Backend.initState, Backend.sumRequested]

theorem Backend.WF_applyOp {st : Backend.EndpointState} (h : Backend.WF st)
    (op : Backend.Op) : Backend.WF (Backend.applyOp st op) := by
  cases op with
  | create req =>
    show Backend.WF (Backend.createPod st req).1
    cases hv : Backend.validateCreate st req with
    | some e =>
      have hcp : Backend.createPod st req = (st, .error e) := by
        unfold Backend.createPod
        rw [hv]
      rw [hcp]
      exact h
    | none =>
      obtain ⟨hdup, hneg, himg, havail⟩ := Backend.validateCreate_eq_none hv
      have hcp : Backend.createPod st req =
          (⟨⟨st.ledger.total, st.ledger.available.sub req.requested⟩,
            ⟨req.pod_name, req.owner, req.requested, req.image_url⟩ :: st.pods⟩,
           .ok ⟨req.pod_name, req.owner, req.requested, req.image_url⟩) := by
        unfold Backend.createPod
        rw [hv]
      rw [hcp]
      refine ⟨?_, ?_, ?_⟩
      · intro p hp r
        rcases List.mem_cons.mp hp with h1 | h2
        · subst h1
          exact hneg r
        · exact h.1 p h2 r
      · intro r
        show (st.ledger.available.sub req.requested).get r = _
        rw [PodResources.get_sub, Backend.sumRequested_cons]
        have := h.2.1 r
        simp only []
        omega
      · intro r
        show 0 ≤ (st.ledger.available.sub req.requested).get r
        rw [PodResources.get_sub]
        have h1 := havail r
        have h2 := hneg r
        omega
  | delete pid =>
    show Backend.WF (Backend.deletePod st pid).1
    cases hf : st.pods.find? (fun p => p.pod_id == pid) with
    | none =>
      have hdp : Backend.deletePod st pid = (st, .error "NotFound") := by
        unfold Backend.deletePod
        rw [hf]
      rw [hdp]
      exact h
    | some p =>
      have hmem : p ∈ st.pods := List.mem_of_find?_eq_some hf
      have hdp : Backend.deletePod st pid =
          (⟨⟨st.ledger.total, st.ledger.available.add p.requested⟩,
            Backend.removePod st.pods pid⟩, .ok ()) := by
        unfold Backend.deletePod
        rw [hf]
      rw [hdp]
      refine ⟨?_, ?_, ?_⟩
      · intro q hq r
        exact h.1 q (Backend.mem_removePod hq) r
      · intro r
        show (st.ledger.available.add p.requested).get r = _
        rw [PodResources.get_add, Backend.sumRequested_removePod hf r]
        have := h.2.1 r
        simp only []
        omega
      · intro r
        show 0 ≤ (st.ledger.available.add p.requested).get r
        rw [PodResources.get_add]
        have h1 := h.2.2 r
        have h2 := h.1 p hmem r
        omega

theorem Backend.WF_runOps {st : Backend.EndpointState} (h : Backend.WF st)
    (ops : List Backend.Op) : Backend.WF (Backend.runOps st ops) := by
  induction ops generalizing st with
  | nil => exact h
  | cons op ops ih => exact ih (Backend.WF_applyOp h op)

/-- C2: For every endpoint and every finite sequence of reserve (pod
create) and release (pod delete) operations run from a freshly
configured endpoint with non-negative declared capacity,
`0 ≤ available[r] ≤ total[r]` holds after every operation for every
resource; and a violated (drifted) state is surfaced by the Consistency
Checker — which returns a drift message and never mutates (clamps) the
state. -/
theorem ledger_invariant (total : PodResources) (ops : List Backend.Op)
    (r : ResourceField) (st : Backend.EndpointState)
    (h : ∀ s, 0 ≤ total.get s) :
    (0 ≤ (Backend.runOps (Backend.initState total) ops).ledger.available.get r ∧
      (Backend.runOps (Backend.initState total) ops).ledger.available.get r ≤
        (Backend.runOps (Backend.initState total) ops).ledger.total.get r) ∧
    (Backend.consistencyCheck st).2 = st ∧
    ((∃ s, Backend.reconcileDelta st s ≠ 0) →
      (Backend.consistencyCheck st).1 = Backend.consistencyDriftMessage) := by
  have hwf := Backend.WF_runOps (Backend.WF_initState h) ops
  refine ⟨⟨hwf.2.2 r, ?_⟩, rfl, ?_⟩
  · rw [hwf.2.1 r]
    have := Backend.sumRequested_nonneg
      (fun p hp => hwf.1 p hp r)
    omega
  · rintro ⟨s, hs⟩
    have hnall : ¬(resourceFields.all
        (fun t => Backend.reconcileDelta st t == 0) = true) := by
      intro hall
      have := List.all_eq_true.mp hall s (by cases s <;> simp [resourceFields])
      exact hs (by simpa using this)
    show (if _ then _ else _) = _
    rw [if_neg hnall]

/-- Witness for C2: a create-create-delete history (the second create is
rejected for insufficiency) keeps `available.gpus` within `[0, total]`,
and a manually drifted state draws the drift message from the checker. -/
theorem ledger_invariant_witness :
    (0 ≤ (Backend.runOps (Backend.initState ⟨8, 64, 100⟩)
      [.create ⟨"p1", "o", ⟨2, 16, 20⟩, "https://docker.io/nginx:latest"⟩,
       .create ⟨"p2", "o", ⟨9, 1, 1⟩, "https://docker.io/nginx:latest"⟩,
       .delete "p1"]).ledger.available.get .gpus ∧
      (Backend.runOps (Backend.initState ⟨8, 64, 100⟩)
        [.create ⟨"p1", "o", ⟨2, 16, 20⟩, "https://docker.io/nginx:latest"⟩,
         .create ⟨"p2", "o", ⟨9, 1, 1⟩, "https://docker.io/nginx:latest"⟩,
         .delete "p1"]).ledger.available.get .gpus ≤
        (Backend.runOps (Backend.initState ⟨8, 64, 100⟩)
          [.create ⟨"p1", "o", ⟨2, 16, 20⟩, "https://docker.io/nginx:latest"⟩,
           .create ⟨"p2", "o", ⟨9, 1, 1⟩, "https://docker.io/nginx:latest"⟩,
           .delete "p1"]).ledger.total.get .gpus) ∧
    (Backend.consistencyCheck
      ⟨⟨⟨8, 0, 0⟩, ⟨6, 0, 0⟩⟩, [⟨"a", "o", ⟨1, 0, 0⟩, "img"⟩]⟩).1 =
      Backend.consistencyDriftMessage := by
  refine ⟨(ledger_invariant ⟨8, 64, 100⟩
      [.create ⟨"p1", "o", ⟨2, 16, 20⟩, "https://docker.io/nginx:latest"⟩,
       .create ⟨"p2", "o", ⟨9, 1, 1⟩, "https://docker.io/nginx:latest"⟩,
       .delete "p1"] .gpus
      ⟨⟨⟨8, 0, 0⟩, ⟨6, 0, 0⟩⟩, [⟨"a", "o", ⟨1, 0, 0⟩, "img"⟩]⟩
      (by decide)).1, ?_⟩
  exact (ledger_invariant ⟨8, 64, 100⟩ [] .gpus
      ⟨⟨⟨8, 0, 0⟩, ⟨6, 0, 0⟩⟩, [⟨"a", "o", ⟨1, 0, 0⟩, "img"⟩]⟩
      (by decide)).2.2 ⟨.gpus, by decide⟩

end ResourceManager
